import Mathlib

/-!
Verification of the RTF conversion pipeline of the allmark web server
(`modules/web/server/handler/rtf.go`).

The Go source of the handler is embedded shallowly below: pure string
manipulation becomes Lean functions on `String`/`List Char`, the
request-handling procedure becomes a function from its configuration,
collaborator outcomes and environment choices to an explicit record of its
observable effects (log events, 404-fallback invocation, temporary files
written, external processes run, response headers and body).

Collaborating packages of the repository that are not part of the given
sources (the `route` package, the template provider, the `renderTemplate`
helper and the `viewmodel` types) are modelled from the specification; each
such definition carries a doc comment saying so.
-/

namespace Allmark

/-- Splits a list of characters at every character satisfying `p`, keeping
empty segments, mirroring Go's `strings.Split` with a one-character
separator (and, for a character-class predicate, a character-wise split).
The result is always non-empty. -/
def splitOnPred (p : Char → Bool) : List Char → List (List Char)
  | [] => [[]]
  | c :: rest =>
    match splitOnPred p rest with
    | [] => if p c then [[], []] else [[c]]
    | h :: t => if p c then [] :: h :: t else (c :: h) :: t

/-- Go `strings.TrimSuffix`: if `suffixText` is a suffix of `s`, the copy of
`s` with that suffix removed, otherwise `s` unchanged. -/
def trimSuffix (s suffixText : String) : String :=
  if suffixText.data <:+ s.data then
    String.mk (s.data.take (s.data.length - suffixText.data.length))
  else s

namespace route

/-- Modelled from the spec: the `route` package is not among the given
sources. The spec describes a `Route` as an immutable, slash-segmented path
identifier with a canonical string form. -/
structure Route where
  value : String
deriving DecidableEq

/-- Modelled from the spec: route parsing "fails ... if the remaining text
cannot be parsed as a path (e.g., contains illegal characters)". We model a
character as illegal when it is a control character. -/
def isIllegalRouteCharacter (c : Char) : Bool := c.val < 32

/-- Modelled from the spec: `route.NewFromRequest` parses a request path
into a `Route`; a `Route` is "constructible only from a well-formed path
string", so parsing fails when the text contains an illegal character or is
not a path at all (the empty string). -/
def NewFromRequest (requestPath : String) : Option Route :=
  if requestPath.data.any isIllegalRouteCharacter || requestPath.data.isEmpty then none
  else some ⟨requestPath⟩

/-- Modelled from the spec: the canonical string form of a route. -/
def Route.Value (r : Route) : String := r.value

/-- Modelled from the spec: a route "exposes its last path segment"; the
last of the slash-separated components of the route's value. -/
def Route.LastComponentName (r : Route) : String :=
  String.mk ((splitOnPred (fun c => c == '/') r.value.data).getLastD [])

end route

namespace viewmodel

/-- Modelled from the spec: the conversion model is "a snapshot of a content
item sufficient for rendering — includes a route, a display title, a
hierarchy level (0 = root item), and a type discriminator" (Go
`viewmodel.ConversionModel`; the Go field `Type` is rendered `typ` because
`Type` is reserved in Lean). -/
structure ConversionModel where
  Route : String
  Title : String
  Level : Int
  typ : String
deriving DecidableEq

end viewmodel

namespace templates

/-- Modelled from the spec: a template held by the template provider; its
content is opaque to the handler. -/
structure Template where
  content : String
deriving DecidableEq

/-- Modelled from the spec: the name of "the named conversion sub-template"
looked up on the template provider. -/
def ConversionTemplateName : String := "converter"

end templates

namespace handler

/-- How one standard stream of a child process is wired up. -/
inductive StreamMode where
  /-- Left at its zero value (the child reads from or writes to the null device). -/
  | unset
  /-- Assigned the parent's own stream object (`os.Stdin`/`os.Stdout`/`os.Stderr`). -/
  | inherited
  /-- Read through a pipe whose bytes a background task copies to the parent's stream. -/
  | pipedViaCopyTask
deriving DecidableEq

/-- A configured child-process invocation (Go `exec.Cmd`): program name,
argument vector, working directory and the wiring of the three standard
streams. -/
structure Cmd where
  name : String
  args : List String
  dir : String
  stdinMode : StreamMode
  stdoutMode : StreamMode
  stderrMode : StreamMode
deriving DecidableEq

/-- Go `exec.Command(name, args...)`: a command with no working directory
set and all three standard streams at their zero value. -/
def execCommand (name : String) (args : List String) : Cmd :=
  { name := name, args := args, dir := "", stdinMode := StreamMode.unset,
    stdoutMode := StreamMode.unset, stderrMode := StreamMode.unset }

/-- Go `redirectCommandIO`: request pipes for the command's standard output
and standard error (each drained by a background `io.Copy` task onto the
parent's corresponding stream) and connect the command's standard input to
the parent's standard input. -/
def redirectCommandIO (cmd : Cmd) : Cmd :=
  { cmd with stdoutMode := StreamMode.pipedViaCopyTask,
             stderrMode := StreamMode.pipedViaCopyTask,
             stdinMode := StreamMode.inherited }

/-- Go `getCmd`: `nil` for an empty command line; otherwise split the
command line on the space character (Go `strings.Split(commandText, " ")`),
take the first component as the program name and the remaining components
as the arguments, set the working directory, and redirect the command's
standard streams via `redirectCommandIO`. -/
def getCmd (directory commandText : String) : Option Cmd :=
  if commandText = "" then none
  else
    let components := (splitOnPred (fun c => c == ' ') commandText.data).map String.mk
    let commandName := components.headD ""
    let arguments := if 1 < components.length then components.tail else []
    some ( redirectCommandIO { execCommand commandName arguments with dir := directory })

/-- Outcome of Go `execute`: `execute` calls `command.Start()` on the result
of `getCmd` without a nil check, so when `getCmd` returns `nil` (empty
command text) the call dereferences a nil pointer; otherwise the command is
started and waited for. -/
inductive ExecOutcome where
  /-- `command` was `nil` and `command.Start()` dereferenced it. -/
  | nilDereference
  /-- The command was started and `Wait` was called on it. -/
  | ran (cmd : Cmd)
deriving DecidableEq

/-- Go `execute`: obtain the command from `getCmd` and start and wait for
it; no nil check guards the `Start` call. -/
def execute (directory commandText : String) : ExecOutcome :=
  match getCmd directory commandText with
  | none => ExecOutcome.nilDereference
  | some command => ExecOutcome.ran command

/-- A log statement issued by the handler (the format string of the Go
logger call; arguments are abstracted). -/
inductive LogEvent where
  | logError (message : String)
  | logWarn (message : String)
deriving DecidableEq

/-- One launch of the external converter: the configured command and whether
the caller blocked until the child exited (Go `cmd.Run()`). -/
structure ProcRun where
  cmd : Cmd
  waited : Bool
deriving DecidableEq

/-- The effects of one execution of the RTF handler body: log events, 404
fallback invocation, temporary files written (path and content), external
processes run, and the Content-Disposition header and response body, when
any were produced. -/
structure HandlerOutcome where
  logs : List LogEvent
  called404 : Bool
  tempFilesWritten : List (String × String)
  procRuns : List ProcRun
  contentDisposition : Option String
  responseBody : Option String
deriving DecidableEq

/-- The externally observable part of a handler outcome: everything a
client or the filesystem/process table can see; server-side log text is
excluded. -/
def HandlerOutcome.observable (o : HandlerOutcome) :
    Bool × List (String × String) × List ProcRun × Option String × Option String :=
  (o.called404, o.tempFilesWritten, o.procRuns, o.contentDisposition, o.responseBody)

/-- Go `config.Conversion.Rtf`: the enabled flag and the converter tool
path. -/
structure RtfConfig where
  enabled : Bool
  tool : String
deriving DecidableEq

/-- The environment choices made by the operating system and the external
converter during one request: the two names returned by
`fsutil.GetTempFileName`, whether each `fsutil.OpenFile` call succeeds,
whether `cmd.Run` succeeds, and the bytes found in the converter's output
file. -/
structure Env where
  htmlTempName : String
  rtfTempName : String
  openHtmlOk : Bool
  runOk : Bool
  openRtfOk : Bool
  rtfContent : String

/-- The Go `Rtf` handler: its configuration together with its collaborator
interfaces, modelled as function-valued fields. `getConversionModel` is the
conversion-model orchestrator (`nil` result modelled as `none`),
`getSubTemplate` the template provider, and `renderTemplate` the shared
template-rendering helper (both fallible, modelled with `Except`). -/
structure Rtf where
  config : RtfConfig
  getConversionModel : String → route.Route → Option viewmodel.ConversionModel
  getSubTemplate : String → String → Except String templates.Template
  renderTemplate : viewmodel.ConversionModel → templates.Template → Except String String

/-- The suffix stripping performed by the handler on the request path:
first Go `strings.TrimSuffix(path, "rtf")`, then
`strings.TrimSuffix(path, ".")`. -/
def stripRtfSuffix (p : String) : String :=
  trimSuffix (trimSuffix p "rtf") "."

/-- Go `getRichTextFilename`: parse the model's route; re-parse its last
component; for a level-0 model re-parse the title instead; any parse
failure returns the fallback name `document`; otherwise `.rtf` is appended
to the value of the chosen route. -/
def getRichTextFilename (model : viewmodel.ConversionModel) : String :=
  match route.NewFromRequest model.Route with
  | none => "document"
  | some originalRoute =>
    match route.NewFromRequest originalRoute.LastComponentName with
    | none => "document"
    | some fileNameRoute =>
      if model.Level = 0 then
        match route.NewFromRequest model.Title with
        | none => "document"
        | some titleRoute => titleRoute.Value ++ ".rtf"
      else fileNameRoute.Value ++ ".rtf"

/-- Go `Rtf.convertToHtml`: look up the conversion sub-template for the
host; on lookup failure log and return the empty string; render the model
through the template; on render failure log and return the empty string.
Returns the rendered text together with the log events issued. -/
def Rtf.convertToHtml (handler : Rtf) (hostname : String)
    (viewModel : viewmodel.ConversionModel) : String × List LogEvent :=
  match handler.getSubTemplate hostname templates.ConversionTemplateName with
  | Except.error _ => ("", [LogEvent.logError "No template for item of type %q."])
  | Except.ok template =>
    match handler.renderTemplate viewModel template with
    | Except.error e => ("", [LogEvent.logError e])
    | Except.ok rendered => (rendered, [])

/-- Go `Rtf.Func`: the body of the request handler, as a function from the
request variables and the environment to the outcome record. Mirrors the
source order: strip the format suffix, parse the route (silent abort on
failure), gate on the enabled flag and then on a configured tool (404
fallback on either), look up the conversion model (404 fallback when not
found), render the HTML, write it to the temporary HTML file, invoke the
converter with `-s <html> -o <rtf>` and the parent's standard output and
error streams, blocking until it exits, and on success send the
Content-Disposition header and the converted bytes. -/
def Rtf.Func (handler : Rtf) (env : Env) (pathVar hostname : String) : HandlerOutcome :=
  match route.NewFromRequest (stripRtfSuffix pathVar) with
  | none =>
    { logs := [LogEvent.logError "Unable to get route from request. Error: %s"],
      called404 := false, tempFilesWritten := [], procRuns := [],
      contentDisposition := none, responseBody := none }
  | some requestRoute =>
    if handler.config.enabled = false then
      { logs := [LogEvent.logWarn "Cannot convert item %q to RTF. RTF conversion is disabled in the config."],
        called404 := true, tempFilesWritten := [], procRuns := [],
        contentDisposition := none, responseBody := none }
    else if handler.config.tool.length = 0 then
      { logs := [LogEvent.logWarn "Cannot convert item %q to RTF. There is no rtf conversion tool configured."],
        called404 := true, tempFilesWritten := [], procRuns := [],
        contentDisposition := none, responseBody := none }
    else
      match handler.getConversionModel hostname requestRoute with
      | none =>
        { logs := [], called404 := true, tempFilesWritten := [], procRuns := [],
          contentDisposition := none, responseBody := none }
      | some model =>
        let htmlAndLogs := handler.convertToHtml hostname model
        let htmlFilePath := env.htmlTempName ++ ".html"
        if env.openHtmlOk = false then
          { logs := htmlAndLogs.2 ++ [LogEvent.logError "Cannot open HTML file for writing. Error: %s"],
            called404 := false, tempFilesWritten := [], procRuns := [],
            contentDisposition := none, responseBody := none }
        else
          let targetFile := env.rtfTempName ++ ".rtf"
          let run : ProcRun :=
            { cmd := { execCommand handler.config.tool ["-s", htmlFilePath, "-o", targetFile] with
                       stdoutMode := StreamMode.inherited, stderrMode := StreamMode.inherited },
              waited := true }
          if env.runOk = false then
            { logs := htmlAndLogs.2 ++ [LogEvent.logError "Could not run pandoc: %v"],
              called404 := false, tempFilesWritten := [(htmlFilePath, htmlAndLogs.1)],
              procRuns := [run], contentDisposition := none, responseBody := none }
          else if env.openRtfOk = false then
            { logs := htmlAndLogs.2 ++ [LogEvent.logError "Cannot open target file. Error: %s"],
              called404 := false, tempFilesWritten := [(htmlFilePath, htmlAndLogs.1)],
              procRuns := [run], contentDisposition := none, responseBody := none }
          else
            { logs := htmlAndLogs.2, called404 := false,
              tempFilesWritten := [(htmlFilePath, htmlAndLogs.1)], procRuns := [run],
              contentDisposition := some ("attachment; filename=\"" ++ getRichTextFilename model ++ "\""),
              responseBody := some env.rtfContent }

/-- Follows the spec's words, for comparison with `stripRtfSuffix`: the
suffix removed "manually" — drop `.rtf` when the path ends with it,
otherwise drop a bare trailing `rtf`, otherwise leave the path unchanged. -/
def removeRtfSuffixManually (p : String) : String :=
  if (".rtf").data <:+ p.data then String.mk (p.data.take (p.data.length - 4))
  else if ("rtf").data <:+ p.data then String.mk (p.data.take (p.data.length - 3))
  else p

/-- A whitespace character, for the claim-side reading of `getCmd`. -/
def isWhitespaceChar (c : Char) : Bool :=
  c == ' ' || c == '\t' || c == '\n' || c == '\r'

/-- Follows the claim's words, for comparison with `getCmd`: split the
command-line string on whitespace (any whitespace character) into a program
name and arguments. -/
def getCmdWhitespaceSplit (directory commandText : String) : Option Cmd :=
  if commandText = "" then none
  else
    let components := (splitOnPred isWhitespaceChar commandText.data).map String.mk
    let commandName := components.headD ""
    let arguments := if 1 < components.length then components.tail else []
    some ( redirectCommandIO { execCommand commandName arguments with dir := directory })

end handler

end Allmark

namespace Allmark

namespace handler

/-- A list's tail, guarded by a length test as in `getCmd`, is just its
tail: for lists of at most one element both sides are empty. -/
theorem if_one_lt_tail {α : Type} (l : List α) :
    (if 1 < l.length then l.tail else []) = l.tail := by
  match l with
  | [] => rfl
  | [a] => rfl
  | a :: b :: t =>
    have h : 1 < (a :: b :: t).length := by
      simp [List.length_cons]
    rw [if_pos h]

/-- Evaluation of `trimSuffix` when the suffix is present. -/
theorem trimSuffix_of_suffix (s t : String) (u : List Char)
    (hu : u ++ t.data = s.data) :
    trimSuffix s t = String.mk u := by
  unfold trimSuffix
  rw [if_pos ⟨u, hu⟩]
  congr 1
  rw [← hu]
  simp [List.length_append]

/-- Evaluation of `trimSuffix` when the suffix is absent. -/
theorem trimSuffix_of_not_suffix (s t : String) (h : ¬ (t.data <:+ s.data)) :
    trimSuffix s t = s := by
  unfold trimSuffix
  rw [if_neg h]

/-- The two-step suffix stripping of the handler agrees, on every path that
ends in the format token, with removing the suffix (with its leading dot,
when present) in one step. -/
theorem stripRtf_eq_manual (p : String) (h : ("rtf").data <:+ p.data) :
    stripRtfSuffix p = removeRtfSuffixManually p := by
  obtain ⟨u, hu⟩ := h
  have h1 : trimSuffix p "rtf" = String.mk u := trimSuffix_of_suffix p "rtf" u hu
  unfold stripRtfSuffix
  rw [h1]
  by_cases hdot : (".").data <:+ u
  · obtain ⟨v, hv⟩ := hdot
    have h2 : trimSuffix (String.mk u) "." = String.mk v :=
      trimSuffix_of_suffix (String.mk u) "." v hv
    rw [h2]
    unfold removeRtfSuffixManually
    have hps : (".rtf").data <:+ p.data := by
      refine ⟨v, ?_⟩
      rw [← hu, ← hv]
      simp
    rw [if_pos hps]
    congr 1
    rw [← hu, ← hv]
    simp [List.length_append, List.append_assoc]
  · have h2 : trimSuffix (String.mk u) "." = String.mk u :=
      trimSuffix_of_not_suffix (String.mk u) "." hdot
    rw [h2]
    unfold removeRtfSuffixManually
    have hps : ¬ ((".rtf").data <:+ p.data) := by
      rintro ⟨w, hw⟩
      apply hdot
      refine ⟨w, ?_⟩
      rw [← hu] at hw
      have hw2 : (w ++ (".").data) ++ ("rtf").data = u ++ ("rtf").data := by
        rw [← hw]
        simp
      exact List.append_cancel_right hw2
    rw [if_neg hps, if_pos ⟨u, hu⟩]
    congr 1
    rw [← hu]
    simp [List.length_append]

end handler

end Allmark

namespace Allmark

namespace handler

/-- A template provider used by concrete witness instances. -/
def sampleTemplates : String → String → Except String templates.Template :=
  fun _ _ => Except.ok ⟨"tpl"⟩

/-- A rendering helper used by concrete witness instances. -/
def sampleRender : viewmodel.ConversionModel → templates.Template → Except String String :=
  fun _ _ => Except.ok "HTML"

/-- An environment used by concrete witness instances. -/
def sampleEnv : Env := ⟨"tmp-html", "tmp-rtf", true, true, true, "RTF-BYTES"⟩

/-- A conversion model used by concrete witness instances. -/
def sampleModelDocs : viewmodel.ConversionModel := ⟨"docs/note", "Title", 1, "document"⟩

/-- A handler used by concrete witness instances. -/
def sampleRtfHandler (enabled : Bool) (tool : String)
    (lookup : String → route.Route → Option viewmodel.ConversionModel) : Rtf :=
  ⟨⟨enabled, tool⟩, lookup, sampleTemplates, sampleRender⟩

/-- C4 counterexample: the claim reads `getCmd` as splitting the command
line on whitespace, but the code splits on the space character only; on the
command line `a<TAB>b` the code takes the whole string as the program name
with no arguments, while whitespace splitting would give program `a` with
argument `b`. -/
theorem getCmd_whitespace_counterexample :
    getCmd "/tmp" "a\tb" ≠ getCmdWhitespaceSplit "/tmp" "a\tb" ∧
    getCmd "/tmp" "a\tb" = some ⟨"a\tb", [], "/tmp", StreamMode.inherited,
      StreamMode.pipedViaCopyTask, StreamMode.pipedViaCopyTask⟩ ∧
    getCmdWhitespaceSplit "/tmp" "a\tb" = some ⟨"a", ["b"], "/tmp", StreamMode.inherited,
      StreamMode.pipedViaCopyTask, StreamMode.pipedViaCopyTask⟩ := by
  decide

/-- C4 (amended): for a non-empty command-line string, `getCmd` splits the
string on the space character into a program name (the first component) and
an argument list (the remaining components), sets the child's working
directory to the given directory, connects the child's standard input to
the parent's standard input, and pipes the child's standard output and
standard error to two background copy tasks forwarding to the parent's
corresponding streams. -/
theorem getCmd_splits_on_space (directory commandText : String) (h : commandText ≠ "") :
    getCmd directory commandText =
      some { name := ((splitOnPred (fun c => c == ' ') commandText.data).map String.mk).headD "",
             args := ((splitOnPred (fun c => c == ' ') commandText.data).map String.mk).tail,
             dir := directory, stdinMode := StreamMode.inherited,
             stdoutMode := StreamMode.pipedViaCopyTask,
             stderrMode := StreamMode.pipedViaCopyTask } := by
  unfold getCmd
  rw [if_neg h]
  simp only [ redirectCommandIO, execCommand, if_one_lt_tail]

/-- Witness for C4: `getCmd` on a concrete three-component command line. -/
theorem getCmd_splits_on_space_witness :
    getCmd "/work" "tar -xf a" = some ⟨"tar", ["-xf", "a"], "/work", StreamMode.inherited,
      StreamMode.pipedViaCopyTask, StreamMode.pipedViaCopyTask⟩ :=
  (getCmd_splits_on_space "/work" "tar -xf a" (by decide)).trans (by decide)

/-- C9: `getCmd` returns `nil` (here `none`) exactly for the empty command
line, and under the precondition that the command text is non-empty,
`execute` never reaches the nil dereference that its unguarded
`command.Start()` call would otherwise perform. -/
theorem execute_nonempty_no_nil_dereference (directory commandText : String)
    (h : commandText ≠ "") :
    getCmd directory "" = none ∧
    execute directory commandText ≠ ExecOutcome.nilDereference := by
  refine ⟨rfl, ?_⟩
  unfold execute getCmd
  rw [if_neg h]
  simp

/-- Witness for C9 at a concrete non-empty command line. -/
theorem execute_nonempty_no_nil_dereference_witness :
    getCmd "/tmp" "" = none ∧
    execute "/tmp" "ls -la" ≠ ExecOutcome.nilDereference :=
  execute_nonempty_no_nil_dereference "/tmp" "ls -la" (by decide)

/-- C8: when the template provider has no conversion sub-template for the
requested host, `convertToHtml` logs the failure and returns the empty
string rather than an error; likewise a rendering error yields the empty
string with a logged error. -/
theorem convertToHtml_failures_yield_empty (handler : Rtf) (hostname : String)
    (vm : viewmodel.ConversionModel) :
    (∀ e, handler.getSubTemplate hostname templates.ConversionTemplateName = Except.error e →
      (handler.convertToHtml hostname vm).1 = "" ∧ (handler.convertToHtml hostname vm).2 ≠ []) ∧
    (∀ t e, handler.getSubTemplate hostname templates.ConversionTemplateName = Except.ok t →
      handler.renderTemplate vm t = Except.error e →
      (handler.convertToHtml hostname vm).1 = "" ∧ (handler.convertToHtml hostname vm).2 ≠ []) := by
  constructor
  · intro e he
    unfold Rtf.convertToHtml
    rw [he]
    exact ⟨rfl, by simp⟩
  · intro t e ht he
    unfold Rtf.convertToHtml
    rw [ht]
    simp [he]

/-- Witness for C8: a provider with no conversion sub-template gives an
empty render. -/
theorem convertToHtml_failures_yield_empty_witness :
    (Rtf.convertToHtml ⟨⟨true, "pandoc"⟩, fun _ _ => none, fun _ _ => Except.error "no template",
      fun _ _ => Except.error "render failed"⟩ "example.com" sampleModelDocs).1 = "" :=
  ((convertToHtml_failures_yield_empty ⟨⟨true, "pandoc"⟩, fun _ _ => none,
    fun _ _ => Except.error "no template", fun _ _ => Except.error "render failed"⟩
    "example.com" sampleModelDocs).1 "no template" rfl).1

/-- C1 counterexample: the claim says a parse failure falls back to
`document.<ext>` (extension appended), but the code returns the bare
fallback `document` without the extension: a model whose route contains an
illegal character derives the download filename `document`, not
`document.rtf`. -/
theorem rtf_filename_fallback_counterexample :
    getRichTextFilename ⟨"a\x01", "Title", 1, "x"⟩ = "document" ∧
    ("document" : String) ≠ "document.rtf" := by
  decide

/-- C1 (amended): the derived download filename parses the model's route
and then the route's last path segment; for a level-0 model the title is
re-parsed instead; on any parse failure at any step the result falls back
to the literal base name `document` with no extension appended; on success
the target extension `.rtf` is appended to the sanitized base name. -/
theorem rtf_filename_characterization (model : viewmodel.ConversionModel) :
    (route.NewFromRequest model.Route = none → getRichTextFilename model = "document") ∧
    (∀ r, route.NewFromRequest model.Route = some r →
      (route.NewFromRequest r.LastComponentName = none →
        getRichTextFilename model = "document") ∧
      (∀ fr, route.NewFromRequest r.LastComponentName = some fr →
        (model.Level ≠ 0 → getRichTextFilename model = fr.Value ++ ".rtf") ∧
        (model.Level = 0 →
          (route.NewFromRequest model.Title = none → getRichTextFilename model = "document") ∧
          (∀ tr, route.NewFromRequest model.Title = some tr →
            getRichTextFilename model = tr.Value ++ ".rtf")))) := by
  constructor
  · intro h
    simp [getRichTextFilename, h]
  · intro r hr
    constructor
    · intro h2
      simp [getRichTextFilename, hr, h2]
    · intro fr hfr
      constructor
      · intro hl
        simp [getRichTextFilename, hr, hfr, hl]
      · intro hl
        constructor
        · intro h3
          simp [getRichTextFilename, hr, hfr, hl, h3]
        · intro tr htr
          simp [getRichTextFilename, hr, hfr, hl, htr]

/-- Witness for C1: a level-1 model with route `docs/note` derives
`note.rtf`. -/
theorem rtf_filename_characterization_witness :
    getRichTextFilename sampleModelDocs = "note.rtf" :=
  (((rtf_filename_characterization sampleModelDocs).2 ⟨"docs/note"⟩ rfl).2
    ⟨"note"⟩ rfl).1 (by decide)

/-- C10: the filename derivation parses the route's last path segment
before checking the hierarchy level, so even for a level-0 model a parse
failure of the last segment returns the fallback name; the title determines
the name only when both the last segment and the title parse. -/
theorem rtf_filename_level0_parse_order (model : viewmodel.ConversionModel)
    (h0 : model.Level = 0) :
    (∀ r, route.NewFromRequest model.Route = some r →
      route.NewFromRequest r.LastComponentName = none →
      getRichTextFilename model = "document") ∧
    (∀ r fr tr, route.NewFromRequest model.Route = some r →
      route.NewFromRequest r.LastComponentName = some fr →
      route.NewFromRequest model.Title = some tr →
      getRichTextFilename model = tr.Value ++ ".rtf") := by
  constructor
  · intro r hr h2
    simp [getRichTextFilename, hr, h2]
  · intro r fr tr hr hfr htr
    simp [getRichTextFilename, hr, hfr, h0, htr]

/-- Witness for C10: a level-0 model with route `a/` (whose last segment is
empty and fails to re-parse) falls back to `document` even though its title
parses. -/
theorem rtf_filename_level0_parse_order_witness :
    getRichTextFilename ⟨"a/", "Nice", 0, "x"⟩ = "document" :=
  (rtf_filename_level0_parse_order ⟨"a/", "Nice", 0, "x"⟩ rfl).1 ⟨"a/"⟩ rfl rfl

/-- C5: for every path that ends in the format token `rtf` (bare or
preceded by a dot), stripping the token as the handler does — first the
bare token, then a dangling trailing dot — and parsing the remainder yields
the same route as parsing the path with the suffix removed manually in one
step. -/
theorem strip_parse_agrees_with_manual_removal (p : String)
    (h : ("rtf").data <:+ p.data) :
    route.NewFromRequest (stripRtfSuffix p) =
      route.NewFromRequest (removeRtfSuffixManually p) :=
  congrArg route.NewFromRequest (stripRtf_eq_manual p h)

/-- Witness for C5 on the concrete path `docs/a.rtf`. -/
theorem strip_parse_agrees_with_manual_removal_witness :
    route.NewFromRequest (stripRtfSuffix "docs/a.rtf") =
      route.NewFromRequest (removeRtfSuffixManually "docs/a.rtf") :=
  strip_parse_agrees_with_manual_removal "docs/a.rtf" (by decide)

end handler

end Allmark

namespace Allmark

namespace handler

/-- C2: with RTF conversion disabled in the configuration, every request
whose path parses to a valid route invokes the 404-fallback handler and
returns, launching no external converter process and creating no temporary
files. -/
theorem rtf_disabled_yields_404_no_process (handler : Rtf) (env : Env)
    (pathVar hostname : String) (r : route.Route)
    (hroute : route.NewFromRequest (stripRtfSuffix pathVar) = some r)
    (hdisabled : handler.config.enabled = false) :
    (handler.Func env pathVar hostname).called404 = true ∧
    (handler.Func env pathVar hostname).procRuns = [] ∧
    (handler.Func env pathVar hostname).tempFilesWritten = [] := by
  unfold Rtf.Func
  rw [hroute]
  simp [hdisabled]

/-- Witness for C2 at a concrete disabled handler and parsing path. -/
theorem rtf_disabled_yields_404_no_process_witness :
    (Rtf.Func (sampleRtfHandler false "pandoc" (fun _ _ => some sampleModelDocs))
      sampleEnv "docsrtf" "example.com").called404 = true ∧
    (Rtf.Func (sampleRtfHandler false "pandoc" (fun _ _ => some sampleModelDocs))
      sampleEnv "docsrtf" "example.com").procRuns = [] ∧
    (Rtf.Func (sampleRtfHandler false "pandoc" (fun _ _ => some sampleModelDocs))
      sampleEnv "docsrtf" "example.com").tempFilesWritten = [] :=
  rtf_disabled_yields_404_no_process _ _ _ _ ⟨"docs"⟩ (by decide) rfl

/-- C3: when the model orchestrator reports no conversion model for the
(hostname, route) pair, the handler invokes the 404-fallback handler and
returns, creating no temporary files and launching no external process. -/
theorem rtf_model_not_found_yields_404 (handler : Rtf) (env : Env)
    (pathVar hostname : String) (r : route.Route)
    (hroute : route.NewFromRequest (stripRtfSuffix pathVar) = some r)
    (henabled : handler.config.enabled = true)
    (htool : handler.config.tool.length ≠ 0)
    (hmodel : handler.getConversionModel hostname r = none) :
    (handler.Func env pathVar hostname).called404 = true ∧
    (handler.Func env pathVar hostname).tempFilesWritten = [] ∧
    (handler.Func env pathVar hostname).procRuns = [] := by
  unfold Rtf.Func
  rw [hroute]
  simp [henabled, htool, hmodel]

/-- Witness for C3 at a concrete handler whose orchestrator finds no
model. -/
theorem rtf_model_not_found_yields_404_witness :
    (Rtf.Func (sampleRtfHandler true "pandoc" (fun _ _ => none))
      sampleEnv "docsrtf" "example.com").called404 = true ∧
    (Rtf.Func (sampleRtfHandler true "pandoc" (fun _ _ => none))
      sampleEnv "docsrtf" "example.com").tempFilesWritten = [] ∧
    (Rtf.Func (sampleRtfHandler true "pandoc" (fun _ _ => none))
      sampleEnv "docsrtf" "example.com").procRuns = [] :=
  rtf_model_not_found_yields_404 _ _ _ _ ⟨"docs"⟩ (by decide) rfl (by decide) rfl

/-- C6: once the handler reaches the conversion step, it launches exactly
one external process: the configured tool with argument vector
`-s <intermediate-path> -o <output-path>`, with the parent's standard
output and standard error streams inherited, blocking until the child
exits. -/
theorem rtf_converter_invocation (handler : Rtf) (env : Env)
    (pathVar hostname : String) (r : route.Route) (model : viewmodel.ConversionModel)
    (hroute : route.NewFromRequest (stripRtfSuffix pathVar) = some r)
    (henabled : handler.config.enabled = true)
    (htool : handler.config.tool.length ≠ 0)
    (hmodel : handler.getConversionModel hostname r = some model)
    (hopen : env.openHtmlOk = true) :
    (handler.Func env pathVar hostname).procRuns =
      [⟨{ name := handler.config.tool,
          args := ["-s", env.htmlTempName ++ ".html", "-o", env.rtfTempName ++ ".rtf"],
          dir := "", stdinMode := StreamMode.unset,
          stdoutMode := StreamMode.inherited, stderrMode := StreamMode.inherited }, true⟩] := by
  unfold Rtf.Func
  rw [hroute]
  simp [henabled, htool, hmodel, hopen, execCommand]
  split
  · rfl
  · split <;> rfl

/-- Witness for C6: the concrete handler runs `pandoc -s tmp-html.html -o
tmp-rtf.rtf` with inherited output streams and waits for it. -/
theorem rtf_converter_invocation_witness :
    (Rtf.Func (sampleRtfHandler true "pandoc" (fun _ _ => some sampleModelDocs))
      sampleEnv "docsrtf" "example.com").procRuns =
      [⟨⟨"pandoc", ["-s", "tmp-html.html", "-o", "tmp-rtf.rtf"], "", StreamMode.unset,
        StreamMode.inherited, StreamMode.inherited⟩, true⟩] :=
  (rtf_converter_invocation _ _ _ _ ⟨"docs"⟩ sampleModelDocs (by decide) rfl (by decide)
    rfl rfl).trans (by decide)

/-- C7: when the configured converter tool path is the empty string, the
handler's externally observable behavior (404-fallback invocation,
temporary files, processes, response headers and body) is identical to its
behavior with conversion disabled. -/
theorem rtf_empty_tool_behaves_as_disabled (handler : Rtf) (env : Env)
    (pathVar hostname : String) (htool : handler.config.tool = "") :
    (handler.Func env pathVar hostname).observable =
      (Rtf.Func { handler with config := { handler.config with enabled := false } }
        env pathVar hostname).observable := by
  unfold Rtf.Func
  cases hr : route.NewFromRequest (stripRtfSuffix pathVar) with
  | none => rfl
  | some r =>
    cases he : handler.config.enabled with
    | false => simp [he, htool]
    | true => simp [he, htool, HandlerOutcome.observable]

/-- Witness for C7 at a concrete handler with an unconfigured (empty) tool
path. -/
theorem rtf_empty_tool_behaves_as_disabled_witness :
    (Rtf.Func (sampleRtfHandler true "" (fun _ _ => some sampleModelDocs))
      sampleEnv "docsrtf" "example.com").observable =
      (Rtf.Func { sampleRtfHandler true "" (fun _ _ => some sampleModelDocs) with
          config := { (sampleRtfHandler true "" (fun _ _ => some sampleModelDocs)).config with
            enabled := false } }
        sampleEnv "docsrtf" "example.com").observable :=
  rtf_empty_tool_behaves_as_disabled _ _ _ _ rfl

end handler

end Allmark
